import Mathlib

/-!
Verification development for the readiness-gating and wake-coordination core
of an AI reverse proxy (`ollama-health-checker.js`).

The embedding models the network as explicit outcome values: each HTTP request
made by the code is represented by the `HttpOutcome` the network would deliver
for it. Pure control flow of the source functions is translated directly;
fallible code returns `Except`; the shared mutable `isWaking` flag and the
instrumentation counters (wake calls, delay waits, probe calls) are threaded
as explicit state. Concurrent execution of `ensureOllamaReady` is modelled by
a small-step interleaving semantics whose atomic segments are exactly the
code segments between `await` suspension points.
-/

/-- Outcome the network delivers for one HTTP request: a response with a
status code, or one of the transport-level failures the source code
distinguishes (`ECONNRESET`, `ECONNREFUSED`, `ETIMEDOUT`, certificate
failures). -/
inductive HttpOutcome where
  | status : Nat → HttpOutcome
  | connReset : HttpOutcome
  | connRefused : HttpOutcome
  | timedOut : HttpOutcome
  | tlsError : HttpOutcome
deriving DecidableEq, Repr

/-- `axios.get(ollamaUrl + "/api/tags", { validateStatus: s => s === 200, ... })`:
axios resolves with the response only when `validateStatus` accepts the
status, i.e. exactly for status 200; any other status and every transport
failure makes the promise reject. -/
def axiosGetTags (o : HttpOutcome) : Except HttpOutcome Nat :=
  match o with
  | HttpOutcome.status c =>
      if c = 200 then Except.ok c else Except.error (HttpOutcome.status c)
  | e => Except.error e

/-- `checkOllamaHealth()` (lines 15-71): one GET to `/api/tags`; on a resolved
response returns `response.status === 200`; the `catch` block logs a
classified diagnostic and returns `false`. The `Except` codomain records
whether the function itself can reject: it never does (the catch converts
every rejection to `Except.ok false`). -/
def checkOllamaHealthRun (o : HttpOutcome) : Except HttpOutcome Bool :=
  match axiosGetTags o with
  | Except.ok s => Except.ok (s == 200)
  | Except.error _e => Except.ok false

/-- The boolean its callers observe after `await this.checkOllamaHealth()`
(the error branch is dead: `checkOllamaHealthRun` always resolves). -/
def healthResult (o : HttpOutcome) : Bool :=
  match checkOllamaHealthRun o with
  | Except.ok b => b
  | Except.error _ => false

/-- `checkOllamaHealth` consuming the network oracle: the probe issues exactly
one request, taking the head outcome and leaving the rest of the network
oracle untouched (no internal retry). An empty oracle is a model artifact. -/
def checkOllamaHealthNet (net : List HttpOutcome) :
    Except HttpOutcome Bool × List HttpOutcome :=
  match net with
  | [] => (Except.ok false, [])
  | o :: rest => (checkOllamaHealthRun o, rest)

/-- `axios.post(wakeUrl, {}, ...)` with the default `validateStatus`
(2xx accepted): resolves for any status in [200, 300), rejects otherwise. -/
def axiosPostWake (o : HttpOutcome) : Except HttpOutcome Nat :=
  match o with
  | HttpOutcome.status c =>
      if 200 ≤ c ∧ c < 300 then Except.ok c else Except.error (HttpOutcome.status c)
  | e => Except.error e

/-- `wakeComputer()` (lines 76-98): one POST to the wake URL; on a resolved
response returns `true` exactly when `response.status === 200`, else logs and
returns `false`; the `catch` block logs and returns `false`. Never rejects. -/
def wakeComputerRun (o : HttpOutcome) : Except HttpOutcome Bool :=
  match axiosPostWake o with
  | Except.ok s => if s == 200 then Except.ok true else Except.ok false
  | Except.error _e => Except.ok false

/-- The boolean its callers observe after `await this.wakeComputer()`. -/
def wakeResult (o : HttpOutcome) : Bool :=
  match wakeComputerRun o with
  | Except.ok b => b
  | Except.error _ => false

/-! ## The checker instance and its TLS handling -/

/-- The `httpsAgent` option passed to `axios.get` in `checkOllamaHealth`:
`new https.Agent({ rejectUnauthorized: false, keepAlive: false })`. -/
structure HttpsAgentConfig where
  rejectUnauthorized : Bool
  keepAlive : Bool
deriving DecidableEq, Repr

/-- The fields of `class OllamaHealthChecker`, as set by its constructor. -/
structure OllamaHealthChecker where
  ollamaUrl : String
  wakeUrl : String
  wakeApiKey : String
  wakeDelayMs : Nat
  isWaking : Bool
deriving DecidableEq, Repr

/-- `constructor(ollamaUrl, wakeUrl, wakeApiKey, wakeDelay = 10)`: stores the
URLs and key, converts the delay to milliseconds, starts with
`isWaking = false`. There is no TLS-related parameter or field. -/
def mkOllamaHealthChecker (ollamaUrl wakeUrl wakeApiKey : String)
    (wakeDelaySeconds : Nat) : OllamaHealthChecker :=
  { ollamaUrl := ollamaUrl
    wakeUrl := wakeUrl
    wakeApiKey := wakeApiKey
    wakeDelayMs := wakeDelaySeconds * 1000
    isWaking := false }

/-- JavaScript `String.prototype.startsWith` on the underlying characters. -/
def urlStartsWith (s pre : String) : Bool :=
  List.isPrefixOf pre.data s.data

/-- The `httpsAgent` request option built by `checkOllamaHealth` (lines 32-36):
`this.ollamaUrl.startsWith('https://') ? new https.Agent({ rejectUnauthorized:
false, keepAlive: false }) : undefined`. -/
def healthCheckHttpsAgent (c : OllamaHealthChecker) : Option HttpsAgentConfig :=
  if urlStartsWith c.ollamaUrl "https://" then
    some { rejectUnauthorized := false, keepAlive := false }
  else
    none

/-! ## Sequential model of `ensureOllamaReady` -/

/-- The mutable field `isWaking` together with instrumentation counters for
the observable side effects: how many wake POSTs, boot-delay waits and health
probes a run performed. -/
structure CoordState where
  isWaking : Bool
  wakeCalls : Nat
  delayCalls : Nat
  probeCalls : Nat
deriving DecidableEq, Repr

/-- State at process start: `this.isWaking = false`, nothing invoked yet. -/
def initCoordState : CoordState :=
  { isWaking := false, wakeCalls := 0, delayCalls := 0, probeCalls := 0 }

/-- The two errors `ensureOllamaReady` can throw. -/
inductive CoordErr where
  | wakeFailed
  | stillUnhealthy
deriving DecidableEq, Repr

/-- The `new Error(...)` message attached to each throw. -/
def CoordErr.message : CoordErr → String
  | CoordErr.wakeFailed => "Nie udało się uruchomić komputera"
  | CoordErr.stillUnhealthy => "Ollama nadal nie jest dostępna po uruchomieniu komputera"

/-- `ensureOllamaReady()` (lines 110-156) as a single sequential call, from
the point where the entry wait loop has completed (the loop
`while (this.isWaking) await sleep(1000)` only exits once `isWaking` is
`false`, so a lone caller reaches the first probe with `isWaking = false`).
The three `HttpOutcome` arguments are the network outcomes of the first
probe, the wake POST and the second probe. Mirrors the source control flow:
first probe; healthy => return true; else `isWaking = true`, wake; wake
failure => `isWaking = false` then throw (the `catch` clears the flag again
and rethrows); wake success => delay, second probe, `isWaking = false`,
healthy => return true, else throw (again re-cleared by the `catch`). -/
def ensureOllamaReadyFrom (s : CoordState) (p1 w p2 : HttpOutcome) :
    Except CoordErr Bool × CoordState :=
  let s1 : CoordState := { s with probeCalls := s.probeCalls + 1 }
  if healthResult p1 then
    (Except.ok true, s1)
  else
    let s2 : CoordState := { s1 with isWaking := true }
    let s3 : CoordState := { s2 with wakeCalls := s2.wakeCalls + 1 }
    if wakeResult w then
      let s4 : CoordState := { s3 with delayCalls := s3.delayCalls + 1 }
      let s5 : CoordState := { s4 with probeCalls := s4.probeCalls + 1 }
      let s6 : CoordState := { s5 with isWaking := false }
      if healthResult p2 then
        (Except.ok true, s6)
      else
        (Except.error CoordErr.stillUnhealthy, { s6 with isWaking := false })
    else
      let s4 : CoordState := { s3 with isWaking := false }
      (Except.error CoordErr.wakeFailed, { s4 with isWaking := false })

/-! ## Interleaved small-step semantics of concurrent `ensureOllamaReady`

One `EnsureCall` is one in-flight call to `ensureOllamaReady`; its `TaskPC` is the
resume point at which the call is suspended. An atomic step runs the
synchronous code segment between two `await` suspension points; the scheduler
is an arbitrary list of task indices. -/

/-- Terminal result of one `ensureOllamaReady` call. -/
inductive TaskOutcome where
  | succeeded
  | failed : CoordErr → TaskOutcome
deriving DecidableEq, Repr

/-- Resume points of `ensureOllamaReady`, one per `await`:
`start` = about to run the entry `isWaking` check; `waitSleep` = suspended in
`await sleep(1000)` inside the entry wait loop; `probing1` = suspended in the
first `await checkOllamaHealth()`; `waking` = suspended in
`await wakeComputer()`; `delaying` = suspended in `await delay()`;
`probing2` = suspended in the second `await checkOllamaHealth()`. -/
inductive TaskPC where
  | start
  | waitSleep
  | probing1
  | waking
  | delaying
  | probing2
  | done : TaskOutcome → TaskPC
deriving DecidableEq, Repr

/-- One in-flight call: its resume point and the network outcomes its own
first probe, wake POST and second probe will deliver. -/
structure EnsureCall where
  pc : TaskPC
  probe1 : HttpOutcome
  wake : HttpOutcome
  probe2 : HttpOutcome
deriving DecidableEq, Repr

/-- Run one atomic segment of a task, given the shared `isWaking` value.
Returns the updated task, the new `isWaking` value, and how many
`wakeComputer` invocations the segment performed (0 or 1).
Segment contents, exactly as in the source:
from `start`, a `true` flag sends the caller into the wait loop (suspending
in `sleep`), a `false` flag starts the first probe; from `waitSleep` the
loop re-checks the flag; resuming `probing1` with a healthy result returns,
with an unhealthy result it sets `isWaking = true` and invokes
`wakeComputer()` in the same synchronous segment; resuming `waking` with
`false` clears the flag and throws `wakeFailed`, with `true` starts the boot
delay; resuming `delaying` starts the second probe; resuming `probing2`
clears the flag and returns or throws `stillUnhealthy`. -/
def stepTask (w : Bool) (t : EnsureCall) : EnsureCall × Bool × Nat :=
  match t.pc with
  | TaskPC.start =>
      if w then ({ t with pc := TaskPC.waitSleep }, w, 0)
      else ({ t with pc := TaskPC.probing1 }, w, 0)
  | TaskPC.waitSleep =>
      if w then (t, w, 0)
      else ({ t with pc := TaskPC.probing1 }, w, 0)
  | TaskPC.probing1 =>
      if healthResult t.probe1 then
        ({ t with pc := TaskPC.done TaskOutcome.succeeded }, w, 0)
      else
        ({ t with pc := TaskPC.waking }, true, 1)
  | TaskPC.waking =>
      if wakeResult t.wake then ({ t with pc := TaskPC.delaying }, w, 0)
      else ({ t with pc := TaskPC.done (TaskOutcome.failed CoordErr.wakeFailed) }, false, 0)
  | TaskPC.delaying => ({ t with pc := TaskPC.probing2 }, w, 0)
  | TaskPC.probing2 =>
      if healthResult t.probe2 then
        ({ t with pc := TaskPC.done TaskOutcome.succeeded }, false, 0)
      else
        ({ t with pc := TaskPC.done (TaskOutcome.failed CoordErr.stillUnhealthy) }, false, 0)
  | TaskPC.done _ => (t, w, 0)

/-- The whole system: the shared flag, the number of `wakeComputer`
invocations made so far, and the in-flight calls. -/
structure SysState where
  isWaking : Bool
  wakeCalls : Nat
  tasks : List EnsureCall
deriving DecidableEq, Repr

/-- Let task `i` run its next atomic segment (no-op for a missing index). -/
def sysStep (s : SysState) (i : Nat) : SysState :=
  match s.tasks[i]? with
  | none => s
  | some t =>
      let r := stepTask s.isWaking t
      { isWaking := r.2.1, wakeCalls := s.wakeCalls + r.2.2, tasks := s.tasks.set i r.1 }

/-- Run a schedule (a list of task indices, each entry one atomic step). -/
def sysRun (s : SysState) (sched : List Nat) : SysState :=
  sched.foldl sysStep s

/-- Two concurrent `ensureOllamaReady` calls arriving while the backend is
down (both of their first probes will be refused) and nobody is waking yet. -/
def raceInit : SysState :=
  { isWaking := false
    wakeCalls := 0
    tasks :=
      [ { pc := TaskPC.start, probe1 := HttpOutcome.connRefused
          wake := HttpOutcome.status 200, probe2 := HttpOutcome.status 200 }
      , { pc := TaskPC.start, probe1 := HttpOutcome.connRefused
          wake := HttpOutcome.status 200, probe2 := HttpOutcome.status 200 } ] }

/-- The interleaving in which both callers pass the `isWaking` check and
start their first probe before either probe resolves. -/
def raceSched : List Nat := [0, 1, 0, 1]

/-! ## The non-blocking chat middleware -/

/-- A JavaScript value as it can appear in the request body's `stream`
field. -/
inductive JsValue where
  | bool : Bool → JsValue
  | str : String → JsValue
  | num : Int → JsValue
  | null
  | undefined
deriving DecidableEq, Repr

/-- The parsed request body (`req.body`) as the middleware reads it: a
`model` field (absent or a string) and a `stream` field. An absent body
(`req.body === undefined`) is `Option.none` at the call site. -/
structure ReqBody where
  model : Option String
  stream : JsValue
deriving DecidableEq, Repr

/-- `requestBody.model || "unknown"`: an absent field and the falsy empty
string both fall back to `"unknown"`. -/
def modelOr (m : Option String) : String :=
  match m with
  | some s => if s = "" then "unknown" else s
  | none => "unknown"

/-- `requestBody && requestBody.stream === true` (lines 182-183): streaming
only when the body is present and its `stream` field is strictly the
boolean `true`. -/
def isStreaming (body : Option ReqBody) : Bool :=
  match body with
  | none => false
  | some b => b.stream == JsValue.bool true

/-- JavaScript `String.prototype.includes` (`req.path.includes('/generate')`,
`req.path.includes('/chat')`) on the underlying characters. -/
def listContainsSub (pat : List Char) : List Char → Bool
  | [] => decide (pat = [])
  | c :: rest => List.isPrefixOf pat (c :: rest) || listContainsSub pat rest

/-- `s.includes(pat)` for strings. -/
def includesSub (s pat : String) : Bool :=
  listContainsSub pat.data s.data

/-- The fixed stub text written in every generate/chat stub. -/
def wakeStubText : String :=
  "Cześć! 👋 Trwa uruchomienie serwera z Ollama. Wyślij ponowne zapytanie za około 20 sekund."

/-- `message` field of the generic (unrecognized-endpoint) 503 body. -/
def wakingMessageShort : String := "Cześć! 👋 Trwa uruchomienie serwera z Ollama."

/-- `instruction` field of the generic 503 body. -/
def wakingInstruction : String := "Wyślij ponowne zapytanie za około 20 sekund."

/-- `message` field of the middleware's catch-block 503 body. -/
def errorMessageText : String := "Cześć! 👋 Wystąpił problem z uruchomieniem komputera."

/-- `instruction` field of the middleware's catch-block 503 body. -/
def errorInstruction : String := "Spróbuj ponownie za chwilę."

/-- The runtime TypeError message raised by `requestBody.model` when
`req.body` is `undefined` (no JSON parser ran for the route). -/
def undefinedModelError : String :=
  "Cannot read properties of undefined (reading 'model')"

/-- The `message` object of a chat-format stub. -/
structure OllamaMessage where
  role : String
  content : String
deriving DecidableEq, Repr

/-- One NDJSON chunk written on the streaming path (no timing counters). -/
inductive StreamChunk where
  | generate : (model createdAt response : String) → (done : Bool) → StreamChunk
  | chat : (model createdAt : String) → (message : OllamaMessage) → (done : Bool) → StreamChunk
deriving DecidableEq, Repr

/-- A JSON body sent on the non-streaming path: the full generate envelope
(with `context` and the six timing counters), the full chat envelope (six
timing counters), the generic unrecognized-endpoint body (`message`,
`instruction`, `status`, `estimated_wait`, `timestamp`) or the catch-block
error body (`message`, `instruction`, `error`, `status`, `timestamp`). -/
inductive JsonBody where
  | generate : (model createdAt response : String) → (done : Bool) →
      (context : List Nat) →
      (totalDuration loadDuration promptEvalCount promptEvalDuration evalCount evalDuration : Nat) →
      JsonBody
  | chat : (model createdAt : String) → (message : OllamaMessage) → (done : Bool) →
      (totalDuration loadDuration promptEvalCount promptEvalDuration evalCount evalDuration : Nat) →
      JsonBody
  | generic : (message instruction statusText estimatedWait timestamp : String) → JsonBody
  | middlewareError : (message instruction error statusText timestamp : String) → JsonBody
deriving DecidableEq, Repr

/-- What the middleware sends back: `next()` (pass through to the proxy), a
streamed NDJSON response with an HTTP status and a chunk list, or a single
JSON response with an HTTP status and a body. -/
inductive ChatResp where
  | next
  | stream : Nat → List StreamChunk → ChatResp
  | json : Nat → JsonBody → ChatResp
deriving DecidableEq, Repr

/-- The HTTP status carried by a response (`none` for `next()`). -/
def ChatResp.statusOf : ChatResp → Option Nat
  | ChatResp.next => none
  | ChatResp.stream st _ => some st
  | ChatResp.json st _ => some st

/-- Whether the response is a streamed one. -/
def ChatResp.isStream : ChatResp → Bool
  | ChatResp.stream _ _ => true
  | _ => false

/-- The handler returned by `chatMiddleware()` (lines 161-281), for one
request. Arguments: the coordinator state (the handler belongs to the same
class instance that owns `isWaking`), the network outcomes of the health
probe and of the fire-and-forget wake POST, the request path, the request
body, and the timestamp string `new Date().toISOString()` evaluates to.
Mirrors the source: probe; healthy => `next()`. Unhealthy =>
`this.wakeComputer().catch(log)` is fired without `await` (its resolved
boolean is discarded, so the response below never depends on it); then the
strict streaming test selects the path. Streaming: `writeHead(200)` and one
chunk for a `/generate` or `/chat` path, no chunk otherwise. Non-streaming:
a 200 JSON stub for `/generate` or `/chat` (reading `requestBody.model`
raises a TypeError when the body is absent, which the catch block turns
into the 503 error body), and the generic 503 body for any other path. -/
def chatMiddlewareRun (s : CoordState) (health wake : HttpOutcome)
    (path : String) (body : Option ReqBody) (now : String) :
    ChatResp × CoordState :=
  let s1 : CoordState := { s with probeCalls := s.probeCalls + 1 }
  if healthResult health then
    (ChatResp.next, s1)
  else
    let _bg := wakeComputerRun wake
    let s2 : CoordState := { s1 with wakeCalls := s1.wakeCalls + 1 }
    let isGen := includesSub path "/generate"
    let isChat := includesSub path "/chat"
    if isStreaming body then
      match body with
      | some b =>
          if isGen then
            (ChatResp.stream 200
              [StreamChunk.generate (modelOr b.model) now wakeStubText true], s2)
          else if isChat then
            (ChatResp.stream 200
              [StreamChunk.chat (modelOr b.model) now
                { role := "assistant", content := wakeStubText } true], s2)
          else
            (ChatResp.stream 200 [], s2)
      | none => (ChatResp.stream 200 [], s2)
    else
      if isGen then
        match body with
        | some b =>
            (ChatResp.json 200
              (JsonBody.generate (modelOr b.model) now wakeStubText true []
                1000000 1000000 0 0 1 1000000), s2)
        | none =>
            (ChatResp.json 503
              (JsonBody.middlewareError errorMessageText errorInstruction
                undefinedModelError "error" now), s2)
      else if isChat then
        match body with
        | some b =>
            (ChatResp.json 200
              (JsonBody.chat (modelOr b.model) now
                { role := "assistant", content := wakeStubText } true
                1000000 1000000 0 0 1 1000000), s2)
        | none =>
            (ChatResp.json 503
              (JsonBody.middlewareError errorMessageText errorInstruction
                undefinedModelError "error" now), s2)
      else
        (ChatResp.json 503
          (JsonBody.generic wakingMessageShort wakingInstruction
            "waking_up" "20 sekund" now), s2)

/-- The body of scenario E: `{ model: "llama2", stream: true }`. -/
def llamaChatBody : ReqBody := { model := some "llama2", stream := JsValue.bool true }

/-! ## Helper lemmas -/

/-- The probe always resolves, with `true` exactly on status 200. -/
theorem checkOllamaHealthRun_eq (o : HttpOutcome) :
    checkOllamaHealthRun o = Except.ok (decide (o = HttpOutcome.status 200)) := by
  cases o with
  | status c =>
      by_cases h : c = 200 <;> simp [checkOllamaHealthRun, axiosGetTags, h]
  | connReset => rfl
  | connRefused => rfl
  | timedOut => rfl
  | tlsError => rfl

/-- The wake call always resolves, with `true` exactly on status 200 (a 2xx
status other than 200 resolves the POST but the function returns `false`). -/
theorem wakeComputerRun_eq (o : HttpOutcome) :
    wakeComputerRun o = Except.ok (decide (o = HttpOutcome.status 200)) := by
  cases o with
  | status c =>
      by_cases h : c = 200
      · simp [wakeComputerRun, axiosPostWake, h]
      · by_cases hr : 200 ≤ c ∧ c < 300 <;>
          simp [wakeComputerRun, axiosPostWake, h, hr]
  | connReset => rfl
  | connRefused => rfl
  | timedOut => rfl
  | tlsError => rfl

/-- The boolean the callers observe from the probe. -/
theorem healthResult_eq (o : HttpOutcome) :
    healthResult o = decide (o = HttpOutcome.status 200) := by
  simp [healthResult, checkOllamaHealthRun_eq]

/-- The boolean the callers observe from the wake call. -/
theorem wakeResult_eq (o : HttpOutcome) :
    wakeResult o = decide (o = HttpOutcome.status 200) := by
  simp [wakeResult, wakeComputerRun_eq]

/-- The middleware's response never depends on the outcome of the
fire-and-forget wake POST (its resolved boolean is discarded unread). -/
theorem chatMiddlewareRun_wake_independent (s : CoordState) (h w1 w2 : HttpOutcome)
    (path : String) (body : Option ReqBody) (now : String) :
    (chatMiddlewareRun s h w1 path body now).1
      = (chatMiddlewareRun s h w2 path body now).1 := rfl

/-! ## Claim theorems -/

/-- Claim C4: `checkOllamaHealth` classifies the backend as healthy exactly
when the single GET to `/api/tags` returns status 200; every other status,
transport error, TLS error or timeout yields unhealthy; and the probe
consumes exactly one network outcome, leaving the remainder of the network
oracle untouched — it never retries internally. -/
theorem c4_health_probe_exact_200_no_retry (o : HttpOutcome) (rest : List HttpOutcome) :
    checkOllamaHealthNet (o :: rest)
      = (Except.ok (decide (o = HttpOutcome.status 200)), rest)
    ∧ (healthResult o = true ↔ o = HttpOutcome.status 200) := by
  constructor
  · simp [checkOllamaHealthNet, checkOllamaHealthRun_eq]
  · simp [healthResult_eq]

/-- Claim C9: both `checkOllamaHealth` and `wakeComputer` are total at their
interface: for every network outcome (any status, transport error, TLS error
or timeout) each resolves with a boolean — `true` exactly on status 200,
`false` on any failure — and neither ever rejects (raises) to its caller. -/
theorem c9_probe_and_wake_total (o : HttpOutcome) :
    checkOllamaHealthRun o = Except.ok (decide (o = HttpOutcome.status 200))
    ∧ wakeComputerRun o = Except.ok (decide (o = HttpOutcome.status 200)) :=
  ⟨checkOllamaHealthRun_eq o, wakeComputerRun_eq o⟩

/-- Claim C2 counterexample: in the only configuration the constructor
offers (there is no TLS-related option at all), an HTTPS backend URL makes
the probe attach an https agent with `rejectUnauthorized: false` — TLS
certificate validation is disabled by default, with no explicit opt-in. -/
theorem c2_counterexample_tls_disabled_by_default :
    healthCheckHttpsAgent
      (mkOllamaHealthChecker "https://ollama.example.com" "http://wake.example" "key" 10)
      = some { rejectUnauthorized := false, keepAlive := false } := by
  decide

/-- Claim C2 amended: the probe disables TLS certificate validation
unconditionally for every checker whose backend URL starts with `https://`
(no configuration controls it), and attaches no https agent for any other
URL. -/
theorem c2_amended_tls_always_disabled_for_https
    (ourl wurl key : String) (d : Nat) :
    (urlStartsWith ourl "https://" = true →
      healthCheckHttpsAgent (mkOllamaHealthChecker ourl wurl key d)
        = some { rejectUnauthorized := false, keepAlive := false })
    ∧ (urlStartsWith ourl "https://" = false →
      healthCheckHttpsAgent (mkOllamaHealthChecker ourl wurl key d) = none) := by
  constructor <;> intro h <;> simp [healthCheckHttpsAgent, mkOllamaHealthChecker, h]

/-- Witness for the amended C2 at a concrete HTTPS URL. -/
theorem c2_amended_witness :
    urlStartsWith "https://ollama.example.com" "https://" = true ∧
    healthCheckHttpsAgent
      (mkOllamaHealthChecker "https://ollama.example.com" "http://wake.example" "k" 10)
      = some { rejectUnauthorized := false, keepAlive := false } :=
  ⟨by decide,
   (c2_amended_tls_always_disabled_for_https "https://ollama.example.com"
      "http://wake.example" "k" 10).1 (by decide)⟩

/-- Claim C1, evaluated at the failing interleaving: two concurrent
`ensureOllamaReady` calls while the backend is down, where both callers pass
the `isWaking` check and start their first health probe before either probe
resolves. Both observe `isWaking = false`, both find the backend unhealthy,
and both invoke `wakeComputer`: `wakeCalls = 2`, with both callers suspended
inside their own wake POST. The awaited first health probe is a suspension
point between the read of `isWaking` and the write `isWaking = true`, so the
claimed single-flight invariant does not hold. -/
theorem c1_double_wake_race :
    (sysRun raceInit raceSched).wakeCalls = 2
    ∧ (sysRun raceInit raceSched).tasks.map EnsureCall.pc
        = [TaskPC.waking, TaskPC.waking] := by
  decide

/-- Claim C3: a call to `ensureOllamaReady` reaches its first probe with
`isWaking = false` (the entry wait loop only exits once the flag is clear),
and from any such state the flag is `false` again immediately after the call
returns or throws, on every exit path — success, wake failure and
still-unhealthy failure alike — so no failure leaves the coordinator
permanently in the waking state. -/
theorem c3_waking_clear_on_every_exit (s : CoordState) (p1 w p2 : HttpOutcome)
    (h : s.isWaking = false) :
    ((ensureOllamaReadyFrom s p1 w p2).2).isWaking = false := by
  by_cases h1 : healthResult p1 <;> by_cases h2 : wakeResult w <;>
    by_cases h3 : healthResult p2 <;>
      simp [ensureOllamaReadyFrom, h1, h2, h3, h]

/-- Witness for C3 on the wake-failure path from the initial state. -/
theorem c3_witness :
    initCoordState.isWaking = false ∧
    ((ensureOllamaReadyFrom initCoordState HttpOutcome.connRefused
        (HttpOutcome.status 401) HttpOutcome.connRefused).2).isWaking = false :=
  ⟨rfl,
   c3_waking_clear_on_every_exit initCoordState HttpOutcome.connRefused
     (HttpOutcome.status 401) HttpOutcome.connRefused rfl⟩

/-- Claim C5: when the first probe finds the backend unhealthy: a failed wake
invocation clears the flag and throws the descriptive `wakeFailed` error,
awaiting no boot delay and issuing no second probe (delay count unchanged,
exactly one probe); a successful wake awaits the delay once and probes a
second time, returning success when that probe is healthy and otherwise
throwing the distinguishable `stillUnhealthy` error. -/
theorem c5_wake_failure_and_second_probe (s : CoordState) (p1 w p2 : HttpOutcome)
    (h1 : healthResult p1 = false) :
    (wakeResult w = false →
      ensureOllamaReadyFrom s p1 w p2
        = (Except.error CoordErr.wakeFailed,
           { isWaking := false, wakeCalls := s.wakeCalls + 1,
             delayCalls := s.delayCalls, probeCalls := s.probeCalls + 1 }))
    ∧ (wakeResult w = true →
      ensureOllamaReadyFrom s p1 w p2
        = ((if healthResult p2 then Except.ok true
            else Except.error CoordErr.stillUnhealthy),
           { isWaking := false, wakeCalls := s.wakeCalls + 1,
             delayCalls := s.delayCalls + 1, probeCalls := s.probeCalls + 2 })) := by
  cases s
  constructor <;> intro h2 <;> by_cases h3 : healthResult p2 <;>
    simp [ensureOllamaReadyFrom, h1, h2, h3]

/-- Witness for C5 on the wake-failure branch: unhealthy probe, unauthorized
wake, `wakeFailed` thrown, flag clear, no delay awaited, one probe only. -/
theorem c5_witness :
    healthResult HttpOutcome.connRefused = false
    ∧ wakeResult (HttpOutcome.status 401) = false
    ∧ ensureOllamaReadyFrom initCoordState HttpOutcome.connRefused
        (HttpOutcome.status 401) HttpOutcome.connRefused
      = (Except.error CoordErr.wakeFailed,
         { isWaking := false, wakeCalls := 1, delayCalls := 0, probeCalls := 1 }) :=
  ⟨by decide, by decide,
   (c5_wake_failure_and_second_probe initCoordState HttpOutcome.connRefused
      (HttpOutcome.status 401) HttpOutcome.connRefused (by decide)).1 (by decide)⟩

/-- Claim C6 counterexample: a request on a path that is neither a generate
nor a chat endpoint, handled while the backend is down, is answered with
HTTP status 503 — the middleware does carry an error status for this
condition on that path, not a 200 stub. -/
theorem c6_counterexample_503_for_other_kind :
    ((chatMiddlewareRun initCoordState HttpOutcome.connRefused (HttpOutcome.status 200)
        "/api/tags" (some { model := some "m", stream := JsValue.bool false }) "T").1).statusOf
      = some 503 := by
  decide

/-- Claim C6 amended: for every request with a body whose path is a generate
or chat endpoint, handled while the backend is down, the response status is
200 (a JSON stub, or a streamed stub); the wake invocation is fired exactly
once without awaiting its result; and the response is identical whatever the
wake outcome is — a wake failure is never surfaced to the caller. -/
theorem c6_amended_200_stub_for_generate_and_chat (s : CoordState)
    (h w w2 : HttpOutcome) (path : String) (b : ReqBody) (now : String)
    (hd : healthResult h = false)
    (hk : (includesSub path "/generate" || includesSub path "/chat") = true) :
    ((chatMiddlewareRun s h w path (some b) now).1).statusOf = some 200
    ∧ ((chatMiddlewareRun s h w path (some b) now).2).wakeCalls = s.wakeCalls + 1
    ∧ (chatMiddlewareRun s h w2 path (some b) now).1
        = (chatMiddlewareRun s h w path (some b) now).1 := by
  refine ⟨?_, ?_, chatMiddlewareRun_wake_independent s h w2 w path (some b) now⟩
  · rcases Bool.or_eq_true_iff.mp hk with hg | hc
    · by_cases hs : isStreaming (some b) <;>
        simp [chatMiddlewareRun, hd, hg, hs, ChatResp.statusOf]
    · by_cases hs : isStreaming (some b) <;>
        by_cases hg : includesSub path "/generate" <;>
          simp [chatMiddlewareRun, hd, hg, hc, hs, ChatResp.statusOf]
  · simp only [chatMiddlewareRun, hd, Bool.false_eq_true, if_false]
    split_ifs <;> rfl

/-- Witness for the amended C6: chat path, streaming body, backend down;
wake success and wake failure compared. -/
theorem c6_amended_witness :
    healthResult HttpOutcome.connRefused = false
    ∧ (includesSub "/api/chat" "/generate" || includesSub "/api/chat" "/chat") = true
    ∧ ((chatMiddlewareRun initCoordState HttpOutcome.connRefused (HttpOutcome.status 200)
          "/api/chat" (some llamaChatBody) "T").1).statusOf = some 200
    ∧ ((chatMiddlewareRun initCoordState HttpOutcome.connRefused (HttpOutcome.status 200)
          "/api/chat" (some llamaChatBody) "T").2).wakeCalls = initCoordState.wakeCalls + 1
    ∧ (chatMiddlewareRun initCoordState HttpOutcome.connRefused (HttpOutcome.status 401)
          "/api/chat" (some llamaChatBody) "T").1
        = (chatMiddlewareRun initCoordState HttpOutcome.connRefused (HttpOutcome.status 200)
          "/api/chat" (some llamaChatBody) "T").1 :=
  ⟨by decide, by decide,
   (c6_amended_200_stub_for_generate_and_chat initCoordState HttpOutcome.connRefused
      (HttpOutcome.status 200) (HttpOutcome.status 401) "/api/chat" llamaChatBody "T"
      (by decide) (by decide)).1,
   (c6_amended_200_stub_for_generate_and_chat initCoordState HttpOutcome.connRefused
      (HttpOutcome.status 200) (HttpOutcome.status 401) "/api/chat" llamaChatBody "T"
      (by decide) (by decide)).2.1,
   (c6_amended_200_stub_for_generate_and_chat initCoordState HttpOutcome.connRefused
      (HttpOutcome.status 200) (HttpOutcome.status 401) "/api/chat" llamaChatBody "T"
      (by decide) (by decide)).2.2⟩

/-- Claim C7 counterexample: for an unrecognized endpoint kind in the
streaming case, the middleware answers with a 200 NDJSON stream containing
no envelope at all (an empty chunk list) — it does not fall back to a
generic service-unavailable envelope there. -/
theorem c7_counterexample_streaming_empty :
    (chatMiddlewareRun initCoordState HttpOutcome.connRefused (HttpOutcome.status 200)
        "/api/tags" (some { model := some "m", stream := JsValue.bool true }) "T").1
      = ChatResp.stream 200 [] := by
  decide

/-- Claim C7 amended: for an unrecognized endpoint kind (the path is neither
a generate nor a chat endpoint) while the backend is down, the non-streaming
case falls back to the generic 503 service-unavailable envelope (a schema
distinct from the backend's own), while the streaming case yields a 200
stream with no envelope at all. -/
theorem c7_amended_generic_envelope_only_non_streaming (s : CoordState)
    (h w : HttpOutcome) (path : String) (body : Option ReqBody) (now : String)
    (hd : healthResult h = false)
    (hg : includesSub path "/generate" = false)
    (hc : includesSub path "/chat" = false) :
    (chatMiddlewareRun s h w path body now).1
      = if isStreaming body then ChatResp.stream 200 []
        else ChatResp.json 503
          (JsonBody.generic wakingMessageShort wakingInstruction "waking_up" "20 sekund" now) := by
  cases body with
  | none => simp [chatMiddlewareRun, hd, hg, hc, isStreaming]
  | some b =>
      by_cases hs : isStreaming (some b) <;>
        simp [chatMiddlewareRun, hd, hg, hc, hs]

/-- Witness for the amended C7 on a concrete unrecognized path. -/
theorem c7_amended_witness :
    healthResult HttpOutcome.connRefused = false
    ∧ includesSub "/api/tags" "/generate" = false
    ∧ includesSub "/api/tags" "/chat" = false
    ∧ (chatMiddlewareRun initCoordState HttpOutcome.connRefused (HttpOutcome.status 200)
          "/api/tags" (some { model := some "m", stream := JsValue.bool false }) "T").1
        = if isStreaming (some { model := some "m", stream := JsValue.bool false }) then
            ChatResp.stream 200 []
          else ChatResp.json 503
            (JsonBody.generic wakingMessageShort wakingInstruction "waking_up" "20 sekund" "T") :=
  ⟨by decide, by decide, by decide,
   c7_amended_generic_envelope_only_non_streaming initCoordState HttpOutcome.connRefused
     (HttpOutcome.status 200) "/api/tags"
     (some { model := some "m", stream := JsValue.bool false }) "T"
     (by decide) (by decide) (by decide)⟩

/-- Claim C8: two non-blocking chat requests (`/api/chat`, streaming `true`,
model `"llama2"`) handled while the backend is down — modelled as two
successive runs against the shared coordinator state, which covers every
interleaving because the middleware touches no shared state beyond the
instrumentation counter — each return a single-chunk 200 stub whose message
has `role = "assistant"`, a non-empty content and `done = true`; the two
calls trigger two wake invocations, and the `isWaking` flag is neither
consulted nor changed. -/
theorem c8_two_chat_calls_two_wakes (s : CoordState) (h w1 w2 : HttpOutcome)
    (t1 t2 : String) (hd : healthResult h = false) :
    (chatMiddlewareRun s h w1 "/api/chat" (some llamaChatBody) t1).1
      = ChatResp.stream 200
          [StreamChunk.chat "llama2" t1 { role := "assistant", content := wakeStubText } true]
    ∧ (chatMiddlewareRun ((chatMiddlewareRun s h w1 "/api/chat" (some llamaChatBody) t1).2)
          h w2 "/api/chat" (some llamaChatBody) t2).1
      = ChatResp.stream 200
          [StreamChunk.chat "llama2" t2 { role := "assistant", content := wakeStubText } true]
    ∧ ((chatMiddlewareRun ((chatMiddlewareRun s h w1 "/api/chat" (some llamaChatBody) t1).2)
          h w2 "/api/chat" (some llamaChatBody) t2).2).wakeCalls = s.wakeCalls + 2
    ∧ ((chatMiddlewareRun ((chatMiddlewareRun s h w1 "/api/chat" (some llamaChatBody) t1).2)
          h w2 "/api/chat" (some llamaChatBody) t2).2).isWaking = s.isWaking
    ∧ wakeStubText ≠ "" := by
  have hg : includesSub "/api/chat" "/generate" = false := by decide
  have hc : includesSub "/api/chat" "/chat" = true := by decide
  have hs : isStreaming (some llamaChatBody) = true := by decide
  have hm : modelOr llamaChatBody.model = "llama2" := by decide
  refine ⟨?_, ?_, ?_, ?_, by decide⟩ <;>
    simp [chatMiddlewareRun, hd, hg, hc, hs, hm]

/-- Witness for C8 with the backend refusing connections and one wake
succeeding while the other fails. -/
theorem c8_witness :
    healthResult HttpOutcome.connRefused = false
    ∧ (chatMiddlewareRun initCoordState HttpOutcome.connRefused (HttpOutcome.status 200)
          "/api/chat" (some llamaChatBody) "T1").1
        = ChatResp.stream 200
            [StreamChunk.chat "llama2" "T1" { role := "assistant", content := wakeStubText } true]
    ∧ ((chatMiddlewareRun
          ((chatMiddlewareRun initCoordState HttpOutcome.connRefused (HttpOutcome.status 200)
              "/api/chat" (some llamaChatBody) "T1").2)
          HttpOutcome.connRefused (HttpOutcome.status 401)
          "/api/chat" (some llamaChatBody) "T2").2).wakeCalls = initCoordState.wakeCalls + 2 :=
  ⟨by decide,
   (c8_two_chat_calls_two_wakes initCoordState HttpOutcome.connRefused
      (HttpOutcome.status 200) (HttpOutcome.status 401) "T1" "T2" (by decide)).1,
   (c8_two_chat_calls_two_wakes initCoordState HttpOutcome.connRefused
      (HttpOutcome.status 200) (HttpOutcome.status 401) "T1" "T2" (by decide)).2.2.1⟩

/-- Claim C10: while the backend is down, the middleware takes the streaming
path exactly when the request body is present and its `stream` field is
strictly the boolean `true`; any other value — the string `"true"`, a
missing field, a number, or an absent body — selects the non-streaming
path. -/
theorem c10_streaming_strictly_boolean_true (s : CoordState) (h w : HttpOutcome)
    (path : String) (body : Option ReqBody) (now : String)
    (hd : healthResult h = false) :
    (((chatMiddlewareRun s h w path body now).1).isStream = true
      ↔ ∃ b, body = some b ∧ b.stream = JsValue.bool true) := by
  cases body with
  | none =>
      by_cases hg : includesSub path "/generate" <;>
        by_cases hc : includesSub path "/chat" <;>
          simp [chatMiddlewareRun, hd, hg, hc, isStreaming, ChatResp.isStream]
  | some b =>
      by_cases hs : b.stream = JsValue.bool true <;>
        by_cases hg : includesSub path "/generate" <;>
          by_cases hc : includesSub path "/chat" <;>
            simp [chatMiddlewareRun, hd, hg, hc, hs, isStreaming, ChatResp.isStream]

/-- Witness for C10: a body whose `stream` field is the string `"true"` is
not treated as streaming. -/
theorem c10_witness :
    healthResult HttpOutcome.connRefused = false
    ∧ (((chatMiddlewareRun initCoordState HttpOutcome.connRefused (HttpOutcome.status 200)
          "/api/chat" (some { model := some "llama2", stream := JsValue.str "true" }) "T").1).isStream = true
        ↔ ∃ b, (some { model := some "llama2", stream := JsValue.str "true" } : Option ReqBody)
                 = some b ∧ b.stream = JsValue.bool true) :=
  ⟨by decide,
   c10_streaming_strictly_boolean_true initCoordState HttpOutcome.connRefused
     (HttpOutcome.status 200) "/api/chat"
     (some { model := some "llama2", stream := JsValue.str "true" }) "T" (by decide)⟩
